import Mathlib

/-!
Verification of the run-state synchronization and reconciliation engine of the
multi-agent pipeline console.  The definitions below are a shallow embedding of
the frontend source: `RunPage` (its `fetchAll` poll cycle, `handleHITL` control
command handler, polling lifecycle effects and render guards) and
`PipelineTracker` (the phase timeline projection).  React `useState` fields are
gathered in an explicit state record; each `setX` call becomes a functional
update; the `hitlJustApproved` ref is a boolean field; `setInterval` /
`clearInterval` become a `polling` flag; promise settlement of each of the six
concurrent fetches is an explicit `Fetch` value passed into the poll-cycle
transition.
-/

namespace RunSync

/-- Run record as delivered by `GET /runs/:id` and held in the `run` state
variable.  Fields are the ones the page reads: status, phase, agent, brief and
the counters rendered by the tracker. -/
structure Run where
  id : String
  status : String
  current_phase : String
  current_agent : String
  brief : String
  num_requirements : Nat
  num_user_stories : Nat
  num_test_cases : Nat
  num_generated_files : Nat
  planning_iteration : Nat
deriving Repr, DecidableEq

/-- One entry of the activity log (`GET /runs/:id/activity`). -/
structure ActivityEntry where
  agent : String
  message : String
  timestamp : String
  icon : String
deriving Repr, DecidableEq

/-- Deploy status payload (`GET /deploy/status`), initial value
`{ status: 'idle', urls: {} }`. -/
structure Deploy where
  status : String
  urls : List (String × String)
deriving Repr, DecidableEq

/-- Settlement of one fetch, as produced by `Promise.allSettled`: either
fulfilled with its payload, or rejected; for a rejection the only thing the
page inspects is whether `reason?.response?.status === 404`. -/
inductive Fetch (α : Type) where
  | fulfilled (data : α)
  | rejected (is404 : Bool)
deriving Repr, DecidableEq

/-- The `RunPage` component state: the six mirror fields (`run`, `artifacts`,
`files`, `decisions`, `deploy`, `activityLog`), the UI flags, the `polling`
flag standing for a live `setInterval` handle, and the `hitlJustApproved`
ref. -/
structure RunPageState where
  run : Option Run
  artifacts : Option String
  files : List String
  decisions : List String
  deploy : Deploy
  activityLog : List ActivityEntry
  loading : Bool
  error : Option String
  hitlLoading : Bool
  polling : Bool
  hitlJustApproved : Bool
deriving Repr, DecidableEq

/-- The overlay arbitration inside `fetchAll` when the incoming authoritative
status is still `waiting_hitl`: `setRun((prev) => ({ ...incoming, status:
'running', current_phase: prev?.current_phase === 'hitl_gate_1' ? 'building' :
prev?.current_phase === 'hitl_gate_2' ? 'devops' : incoming.current_phase,
current_agent: '' }))`. -/
def overlayMerge (prev : Option Run) (incoming : Run) : Run :=
  { incoming with
    status := "running"
    current_phase :=
      if prev.map Run.current_phase = some "hitl_gate_1" then "building"
      else if prev.map Run.current_phase = some "hitl_gate_2" then "devops"
      else incoming.current_phase
    current_agent := "" }

/-- The tail of `fetchAll`: the five per-resource conditional updates
(`if (artRes.status === 'fulfilled') setArtifacts(...)`, etc.) followed by the
`finally { setLoading(false) }`.  Missing `files` / `decisions` / `activity`
arrays fall back to `[]` exactly as the source's `|| []`. -/
def applyRest (s : RunPageState) (artRes : Fetch String)
    (filesRes : Fetch (Option (List String))) (decRes : Fetch (Option (List String)))
    (depRes : Fetch Deploy) (actRes : Fetch (Option (List ActivityEntry))) :
    RunPageState :=
  let s1 := match artRes with
    | .fulfilled a => { s with artifacts := some a }
    | .rejected _ => s
  let s2 := match filesRes with
    | .fulfilled f => { s1 with files := f.getD [] }
    | .rejected _ => s1
  let s3 := match decRes with
    | .fulfilled d => { s2 with decisions := d.getD [] }
    | .rejected _ => s2
  let s4 := match depRes with
    | .fulfilled d => { s3 with deploy := d }
    | .rejected _ => s3
  let s5 := match actRes with
    | .fulfilled a => { s4 with activityLog := a.getD [] }
    | .rejected _ => s4
  { s5 with loading := false }

/-- The run-status block of `fetchAll` for a fulfilled `getRun`: when the
overlay ref is armed, a non-`waiting_hitl` incoming status retires the ref and
adopts the incoming record verbatim, while a still-`waiting_hitl` status keeps
the ref and publishes `overlayMerge`; with no overlay armed the incoming record
is adopted verbatim. -/
def runStage (s : RunPageState) (incoming : Run) : RunPageState :=
  if s.hitlJustApproved then
    if incoming.status ≠ "waiting_hitl" then
      { s with hitlJustApproved := false, run := some incoming }
    else
      { s with run := some (overlayMerge s.run incoming) }
  else
    { s with run := some incoming }

/-- One poll cycle of `RunPage.fetchAll`, as a function of the previous state
and the settlement of the six concurrent fetches.  The run-status settlement is
handled first: when fulfilled, the `hitlJustApproved` overlay arbitration runs
(`runStage`); when rejected with 404 the cycle clears the interval, sets `run`
to null, sets `loading` false and RETURNS EARLY (no other field update
happens); a non-404 rejection falls through to the five remaining updates. -/
def fetchAll (s : RunPageState) (runRes : Fetch Run) (artRes : Fetch String)
    (filesRes : Fetch (Option (List String))) (decRes : Fetch (Option (List String)))
    (depRes : Fetch Deploy) (actRes : Fetch (Option (List ActivityEntry))) :
    RunPageState :=
  match runRes with
  | .fulfilled incoming =>
    applyRest (runStage s incoming) artRes filesRes decRes depRes actRes
  | .rejected is404 =>
    if is404 then
      { s with polling := false, run := none, loading := false }
    else
      applyRest s artRes filesRes decRes depRes actRes

/-- Response body of the HITL decision command, `{status, current_phase}`;
`current_phase` may be absent. -/
structure HitlResponse where
  status : String
  current_phase : Option String
deriving Repr, DecidableEq

/-- Outcome of the awaited `submitHITL` call: a resolved response body, or a
thrown error whose message lands in the `catch` block. -/
inductive SubmitOutcome where
  | ok (data : HitlResponse)
  | failed (msg : String)
deriving Repr, DecidableEq

/-- JavaScript `a || b` on an optional string: an absent or empty
`current_phase` falls back to the previous phase. -/
def jsOr (a : Option String) (b : String) : String :=
  match a with
  | some v => if v = "" then b else v
  | none => b

/-- The `handleHITL` handler: sets `hitlLoading`, clears `error`; on a
response other than `already_processed` it arms the overlay ref and publishes
the optimistic run `{ ...prev, status: 'running', current_phase:
data.current_phase || prev.current_phase, current_agent: '' }`; on
`already_processed` it changes nothing further; on a thrown error it records
the message; finally clears `hitlLoading`. -/
def handleHITL (s : RunPageState) (outcome : SubmitOutcome) : RunPageState :=
  let s0 := { s with hitlLoading := true, error := none }
  let s1 :=
    match outcome with
    | .ok data =>
      if data.status ≠ "already_processed" then
        { s0 with
          hitlJustApproved := true
          run := s0.run.map (fun (prev : Run) =>
            { prev with
              status := "running"
              current_phase := jsOr data.current_phase prev.current_phase
              current_agent := "" }) }
      else s0
    | .failed m => { s0 with error := some m }
  { s1 with hitlLoading := false }

/-- The deactivation effect `useEffect(() => { if (run?.status === 'completed')
clearInterval(pollRef.current) }, [run?.status])`, checked after every mirror
update. -/
def completedCheck (s : RunPageState) : RunPageState :=
  if s.run.map Run.status = some "completed" then { s with polling := false } else s

/-- Guard under which the HITL gate control surface is rendered:
`isAtHITL = run.status === 'waiting_hitl'` (reachable only once the page is out
of its loading and not-found early returns). -/
def isAtHITL (s : RunPageState) : Bool :=
  s.run.map Run.status == some "waiting_hitl"

/-- Guard under which the main page body (refresh button, tabs, gate) is
rendered: the page is past `if (loading) return ...` and `if (!run) return
...`. -/
def mainViewVisible (s : RunPageState) : Bool :=
  !s.loading && s.run.isSome

/-- In-session events that can reach the engine after mount: a scheduled poll
tick (fires only while the interval is live), a manual refresh click (the
button exists only when the main body renders; `handleExport` re-triggers
`fetchAll` under the same guard), a HITL submission resolving (the gate is
rendered only under `isAtHITL`), a deploy/teardown command response landing in
`setDeploy`, and caller teardown (unmount cleanup clearing the interval). -/
inductive Event where
  | pollTick (runRes : Fetch Run) (artRes : Fetch String)
      (filesRes : Fetch (Option (List String))) (decRes : Fetch (Option (List String)))
      (depRes : Fetch Deploy) (actRes : Fetch (Option (List ActivityEntry)))
  | refreshClick (runRes : Fetch Run) (artRes : Fetch String)
      (filesRes : Fetch (Option (List String))) (decRes : Fetch (Option (List String)))
      (depRes : Fetch Deploy) (actRes : Fetch (Option (List ActivityEntry)))
  | submitDecision (outcome : SubmitOutcome)
  | deployCmd (d : Deploy)
  | teardown

/-- Small-step semantics of one event against the page state.  Every mirror
update is followed by the `completedCheck` deactivation effect.  No event ever
re-creates the interval: `setInterval` occurs only in the mount effect, i.e. on
(re-)activation, which is outside this event alphabet. -/
def step (s : RunPageState) (e : Event) : RunPageState :=
  match e with
  | .pollTick r a f d dp ac =>
    if s.polling then completedCheck (fetchAll s r a f d dp ac) else s
  | .refreshClick r a f d dp ac =>
    if mainViewVisible s then completedCheck (fetchAll s r a f d dp ac) else s
  | .submitDecision o =>
    if mainViewVisible s && isAtHITL s then completedCheck (handleHITL s o) else s
  | .deployCmd d =>
    if mainViewVisible s then { s with deploy := d } else s
  | .teardown => { s with polling := false }

/-! ## Phase timeline projection (`PipelineTracker`) -/

/-- Keys of the `PHASES` table, in its fixed source order. -/
def PHASE_KEYS : List String :=
  ["planning", "hitl_gate_1", "building", "integration", "hitl_gate_2", "devops", "done"]

/-- The static `AGENT_PHASE` lookup table. -/
def AGENT_PHASE (agent : String) : Option String :=
  if agent = "BA Agent" then some "planning"
  else if agent = "PO Agent" then some "planning"
  else if agent = "Architect" then some "planning"
  else if agent = "Evaluator" then some "planning"
  else if agent = "HITL Gate 1" then some "hitl_gate_1"
  else if agent = "Backend Builder" then some "building"
  else if agent = "Frontend Builder" then some "building"
  else if agent = "QA Agent" then some "building"
  else if agent = "Integration Validator" then some "integration"
  else if agent = "HITL Gate 2" then some "hitl_gate_2"
  else if agent = "DevOps Agent" then some "devops"
  else if agent = "Pipeline" then some "done"
  else none

/-- `phaseIndex(phase)`: `findIndex` over the phase table, with `-1` mapped to
`0`. -/
def phaseIndex (phase : String) : Nat :=
  match PHASE_KEYS.findIdx? (fun p => p == phase) with
  | some i => i
  | none => 0

/-- One fold step of building `latestByAgent`: a later entry for an agent
already present overwrites its value in place, a new agent is appended —
JavaScript object semantics (`latestByAgent[entry.agent] = entry` with
first-insertion key order). -/
def upsertLatest (acc : List (String × ActivityEntry)) (e : ActivityEntry) :
    List (String × ActivityEntry) :=
  if acc.any (fun p => p.1 == e.agent) then
    acc.map (fun p => if p.1 == e.agent then (p.1, e) else p)
  else acc ++ [(e.agent, e)]

/-- `latestByAgent`: `for (const entry of activityLog) latestByAgent[entry.agent] = entry`. -/
def latestByAgent (log : List ActivityEntry) : List (String × ActivityEntry) :=
  log.foldl upsertLatest []

/-- Classification of one timeline row. -/
inductive PhaseClass where
  | done
  | current
  | pending
deriving Repr, DecidableEq

/-- One row of the projected timeline: the phase key, its done/current/pending
classification, and the per-agent latest activity attributed to the phase. -/
structure PhaseView where
  key : String
  cls : PhaseClass
  agents : List (String × ActivityEntry)
deriving Repr, DecidableEq

/-- The pure projection computed by `PipelineTracker`: `current =
phaseIndex(run.current_phase)`; for each phase of the fixed table, `isDone: i <
current`, `isCurrent: i === current`, `isPending: i > current`, and
`phaseAgents = Object.entries(latestByAgent).filter(([agent]) =>
AGENT_PHASE[agent] === phase.key)`. -/
def project (run : Run) (log : List ActivityEntry) : List PhaseView :=
  let current := phaseIndex run.current_phase
  let lba := latestByAgent log
  PHASE_KEYS.enum.map (fun ik =>
    { key := ik.2
      cls := if ik.1 < current then .done else if ik.1 = current then .current else .pending
      agents := lba.filter (fun p => AGENT_PHASE p.1 == some ik.2) })

/-- Classification rule quoted by the specification: `done` below the current
index, `current` at it, `pending` above it. -/
def classifyIdx (c i : Nat) : PhaseClass :=
  if i < c then .done else if i = c then .current else .pending

/-- Modelled from the spec: the HITL decision endpoint itself (backend, not
under src/) is specified only at its interface: `POST hitl decision …` responds
`{status, current_phase}` for a processed decision, where per §4.2 the run
leaves the waiting state and its phase advances to the phase immediately
following the gate (`hitl_gate_1 → building`, `hitl_gate_2 → devops`). -/
def hitlAck (gate : String) : HitlResponse :=
  { status := "running"
    current_phase :=
      some (if gate = "hitl_gate_1" then "building"
            else if gate = "hitl_gate_2" then "devops" else gate) }

/-! ## Sample fixtures for witnesses and counterexamples -/

/-- Sample run parked at the first human gate. -/
def run0 : Run :=
  { id := "run-1", status := "waiting_hitl", current_phase := "hitl_gate_1"
    current_agent := "HITL Gate 1", brief := "demo", num_requirements := 3
    num_user_stories := 2, num_test_cases := 4, num_generated_files := 0
    planning_iteration := 0 }

/-- Sample page state: live interval, run parked at gate 1, stale artifacts
blob, no overlay pending. -/
def state0 : RunPageState :=
  { run := some run0, artifacts := some "old", files := [], decisions := []
    deploy := { status := "idle", urls := [] }, activityLog := [], loading := false
    error := none, hitlLoading := false, polling := true, hitlJustApproved := false }

/-- Sample authoritative record for the post-gate-2 regression scenario:
backend looped back to `building`, status `running`. -/
def runBack : Run :=
  { run0 with status := "running", current_phase := "building", current_agent := "QA Agent" }

/-- Sample authoritative record reporting completion. -/
def runDone : Run :=
  { run0 with status := "completed", current_phase := "done", current_agent := "" }

/-! ## Helper lemmas -/

theorem applyRest_run (s : RunPageState) (a : Fetch String)
    (f d : Fetch (Option (List String))) (dp : Fetch Deploy)
    (ac : Fetch (Option (List ActivityEntry))) :
    (applyRest s a f d dp ac).run = s.run := by
  unfold applyRest
  cases a <;> cases f <;> cases d <;> cases dp <;> cases ac <;> rfl

theorem applyRest_flag (s : RunPageState) (a : Fetch String)
    (f d : Fetch (Option (List String))) (dp : Fetch Deploy)
    (ac : Fetch (Option (List ActivityEntry))) :
    (applyRest s a f d dp ac).hitlJustApproved = s.hitlJustApproved := by
  unfold applyRest
  cases a <;> cases f <;> cases d <;> cases dp <;> cases ac <;> rfl

theorem applyRest_polling (s : RunPageState) (a : Fetch String)
    (f d : Fetch (Option (List String))) (dp : Fetch Deploy)
    (ac : Fetch (Option (List ActivityEntry))) :
    (applyRest s a f d dp ac).polling = s.polling := by
  unfold applyRest
  cases a <;> cases f <;> cases d <;> cases dp <;> cases ac <;> rfl

theorem applyRest_artifacts (s : RunPageState) (a : Fetch String)
    (f d : Fetch (Option (List String))) (dp : Fetch Deploy)
    (ac : Fetch (Option (List ActivityEntry))) :
    (applyRest s a f d dp ac).artifacts =
      match a with | .fulfilled x => some x | .rejected _ => s.artifacts := by
  unfold applyRest
  cases a <;> cases f <;> cases d <;> cases dp <;> cases ac <;> rfl

theorem applyRest_files (s : RunPageState) (a : Fetch String)
    (f d : Fetch (Option (List String))) (dp : Fetch Deploy)
    (ac : Fetch (Option (List ActivityEntry))) :
    (applyRest s a f d dp ac).files =
      match f with | .fulfilled x => x.getD [] | .rejected _ => s.files := by
  unfold applyRest
  cases a <;> cases f <;> cases d <;> cases dp <;> cases ac <;> rfl

theorem applyRest_decisions (s : RunPageState) (a : Fetch String)
    (f d : Fetch (Option (List String))) (dp : Fetch Deploy)
    (ac : Fetch (Option (List ActivityEntry))) :
    (applyRest s a f d dp ac).decisions =
      match d with | .fulfilled x => x.getD [] | .rejected _ => s.decisions := by
  unfold applyRest
  cases a <;> cases f <;> cases d <;> cases dp <;> cases ac <;> rfl

theorem applyRest_deploy (s : RunPageState) (a : Fetch String)
    (f d : Fetch (Option (List String))) (dp : Fetch Deploy)
    (ac : Fetch (Option (List ActivityEntry))) :
    (applyRest s a f d dp ac).deploy =
      match dp with | .fulfilled x => x | .rejected _ => s.deploy := by
  unfold applyRest
  cases a <;> cases f <;> cases d <;> cases dp <;> cases ac <;> rfl

theorem applyRest_activityLog (s : RunPageState) (a : Fetch String)
    (f d : Fetch (Option (List String))) (dp : Fetch Deploy)
    (ac : Fetch (Option (List ActivityEntry))) :
    (applyRest s a f d dp ac).activityLog =
      match ac with | .fulfilled x => x.getD [] | .rejected _ => s.activityLog := by
  unfold applyRest
  cases a <;> cases f <;> cases d <;> cases dp <;> cases ac <;> rfl

theorem runStage_artifacts (s : RunPageState) (incoming : Run) :
    (runStage s incoming).artifacts = s.artifacts := by
  unfold runStage
  split
  · split <;> rfl
  · rfl

theorem runStage_files (s : RunPageState) (incoming : Run) :
    (runStage s incoming).files = s.files := by
  unfold runStage
  split
  · split <;> rfl
  · rfl

theorem runStage_decisions (s : RunPageState) (incoming : Run) :
    (runStage s incoming).decisions = s.decisions := by
  unfold runStage
  split
  · split <;> rfl
  · rfl

theorem runStage_deploy (s : RunPageState) (incoming : Run) :
    (runStage s incoming).deploy = s.deploy := by
  unfold runStage
  split
  · split <;> rfl
  · rfl

theorem runStage_activityLog (s : RunPageState) (incoming : Run) :
    (runStage s incoming).activityLog = s.activityLog := by
  unfold runStage
  split
  · split <;> rfl
  · rfl

theorem runStage_polling (s : RunPageState) (incoming : Run) :
    (runStage s incoming).polling = s.polling := by
  unfold runStage
  split
  · split <;> rfl
  · rfl

/-- When the incoming authoritative status is not `waiting_hitl`, the run-stage
adopts the record verbatim and leaves the overlay ref cleared, whether or not
it was armed. -/
theorem runStage_resolved (s : RunPageState) (incoming : Run)
    (h : incoming.status ≠ "waiting_hitl") :
    (runStage s incoming).run = some incoming
    ∧ (runStage s incoming).hitlJustApproved = false := by
  unfold runStage
  by_cases hp : s.hitlJustApproved = true
  · rw [if_pos hp, if_pos h]
    exact ⟨rfl, rfl⟩
  · rw [if_neg hp]
    exact ⟨rfl, by simpa using hp⟩

theorem completedCheck_run (s : RunPageState) : (completedCheck s).run = s.run := by
  unfold completedCheck
  split <;> rfl

theorem completedCheck_flag (s : RunPageState) :
    (completedCheck s).hitlJustApproved = s.hitlJustApproved := by
  unfold completedCheck
  split <;> rfl

theorem completedCheck_polling_false (s : RunPageState) (h : s.polling = false) :
    (completedCheck s).polling = false := by
  unfold completedCheck
  split
  · rfl
  · exact h

theorem handleHITL_polling (s : RunPageState) (o : SubmitOutcome) :
    (handleHITL s o).polling = s.polling := by
  cases o with
  | ok data =>
    simp only [handleHITL]
    split <;> rfl
  | failed m => rfl

theorem fetchAll_polling_false (s : RunPageState) (r : Fetch Run) (a : Fetch String)
    (f d : Fetch (Option (List String))) (dp : Fetch Deploy)
    (ac : Fetch (Option (List ActivityEntry))) (h : s.polling = false) :
    (fetchAll s r a f d dp ac).polling = false := by
  cases r with
  | fulfilled incoming =>
    show (applyRest (runStage s incoming) a f d dp ac).polling = false
    rw [applyRest_polling, runStage_polling]
    exact h
  | rejected b =>
    cases b with
    | true => rfl
    | false =>
      show (applyRest s a f d dp ac).polling = false
      rw [applyRest_polling]
      exact h

/-- No in-session event can restart a stopped interval: `setInterval` occurs
only in the mount effect. -/
theorem step_polling_false (s : RunPageState) (e : Event) (h : s.polling = false) :
    (step s e).polling = false := by
  cases e with
  | pollTick r a f d dp ac => simp [step, h]
  | refreshClick r a f d dp ac =>
    simp only [step]
    split
    · exact completedCheck_polling_false _ (fetchAll_polling_false _ _ _ _ _ _ _ h)
    · exact h
  | submitDecision o =>
    simp only [step]
    split
    · exact completedCheck_polling_false _ (by rw [handleHITL_polling]; exact h)
    · exact h
  | deployCmd d =>
    simp only [step]
    split <;> exact h
  | teardown => rfl

theorem foldl_polling_false (evs : List Event) (s : RunPageState)
    (h : s.polling = false) : (evs.foldl step s).polling = false := by
  induction evs generalizing s with
  | nil => exact h
  | cons e rest ih => exact ih _ (step_polling_false s e h)

/-- Preservation of the terminal not-found configuration (interval cleared, run
absent) by every in-session event. -/
theorem step_dead (s : RunPageState) (e : Event) (h1 : s.polling = false)
    (h2 : s.run = none) :
    (step s e).polling = false ∧ (step s e).run = none := by
  have hv : mainViewVisible s = false := by
    simp [mainViewVisible, h2]
  cases e with
  | pollTick r a f d dp ac => simp [step, h1, h2]
  | refreshClick r a f d dp ac => simp [step, hv, h1, h2]
  | submitDecision o => simp [step, hv, h1, h2]
  | deployCmd d => simp [step, hv, h1, h2]
  | teardown => simp [step, h2]

theorem foldl_dead (evs : List Event) (s : RunPageState) (h1 : s.polling = false)
    (h2 : s.run = none) :
    (evs.foldl step s).polling = false ∧ (evs.foldl step s).run = none := by
  induction evs generalizing s with
  | nil => exact ⟨h1, h2⟩
  | cons e rest ih => exact ih _ (step_dead s e h1 h2).1 (step_dead s e h1 h2).2

/-- Closed form of `handleHITL` on a resolved response other than
`already_processed`: error cleared, overlay ref armed, optimistic run
published. -/
theorem handleHITL_armed (s : RunPageState) (data : HitlResponse)
    (h : data.status ≠ "already_processed") :
    handleHITL s (.ok data) =
      { s with
        error := none
        hitlLoading := false
        hitlJustApproved := true
        run := s.run.map (fun (prev : Run) =>
          { prev with
            status := "running"
            current_phase := jsOr data.current_phase prev.current_phase
            current_agent := "" }) } := by
  simp only [handleHITL]
  rw [if_pos h]

/-! ## Claims -/

/-- C1: for every poll result received while the optimistic overlay is
pending, if the authoritative status is not `waiting_hitl` (running, completed
or error), the overlay ref is retired and the merged run becomes exactly the
incoming authoritative record — its `current_phase` included, even when that
phase is earlier than the predicted one (the quantification places no bound on
`incoming.current_phase`). -/
theorem C1_authoritative_supersedes_overlay (s : RunPageState) (incoming : Run)
    (a : Fetch String) (f d : Fetch (Option (List String))) (dp : Fetch Deploy)
    (ac : Fetch (Option (List ActivityEntry)))
    (hpend : s.hitlJustApproved = true) (hst : incoming.status ≠ "waiting_hitl") :
    (fetchAll s (.fulfilled incoming) a f d dp ac).run = some incoming
    ∧ (fetchAll s (.fulfilled incoming) a f d dp ac).hitlJustApproved = false := by
  constructor
  · show (applyRest (runStage s incoming) a f d dp ac).run = some incoming
    rw [applyRest_run]
    exact (runStage_resolved s incoming hst).1
  · show (applyRest (runStage s incoming) a f d dp ac).hitlJustApproved = false
    rw [applyRest_flag]
    exact (runStage_resolved s incoming hst).2

/-- C1 witness: overlay pending, authoritative result `status = running,
current_phase = building` — a phase behind the gate-2 prediction `devops` — is
adopted verbatim and the overlay is retired. -/
theorem C1_witness :
    (fetchAll { state0 with hitlJustApproved := true } (.fulfilled runBack)
      (.rejected false) (.rejected false) (.rejected false) (.rejected false)
      (.rejected false)).run = some runBack
    ∧ (fetchAll { state0 with hitlJustApproved := true } (.fulfilled runBack)
      (.rejected false) (.rejected false) (.rejected false) (.rejected false)
      (.rejected false)).hitlJustApproved = false :=
  C1_authoritative_supersedes_overlay { state0 with hitlJustApproved := true }
    runBack (.rejected false) (.rejected false) (.rejected false) (.rejected false)
    (.rejected false) rfl (by decide)

/-- C2 (failing trace): after `submit("approved", fb)` at `hitl_gate_1`
(acknowledged without a phase), the first stale `waiting_hitl` poll is masked
to `building`, but the second consecutive stale poll regresses the merged
`current_phase` back to the stale gate `hitl_gate_1`, because the merge keys
its prediction off the previous merged phase (no longer a gate) instead of the
armed gate.  The overlay is still pending and the status is still forced to
`running`, yet the phase has regressed — contradicting the claim that the view
never regresses across any number of consecutive stale polls. -/
theorem C2_stale_poll_regression :
    (let t0 := handleHITL state0 (.ok { status := "running", current_phase := none });
     let t1 := fetchAll t0 (.fulfilled run0) (.rejected false) (.rejected false)
       (.rejected false) (.rejected false) (.rejected false);
     let t2 := fetchAll t1 (.fulfilled run0) (.rejected false) (.rejected false)
       (.rejected false) (.rejected false) (.rejected false);
     t0.run.map Run.current_phase = some "hitl_gate_1"
     ∧ t1.run.map Run.current_phase = some "building"
     ∧ t2.run.map Run.current_phase = some "hitl_gate_1"
     ∧ t2.run.map Run.status = some "running"
     ∧ t2.hitlJustApproved = true) :=
  ⟨rfl, rfl, rfl, rfl, rfl⟩

/-- C3: immediately after a successful, not-already-processed
`submit("approved", …)` while the merged view sits at `hitl_gate_1` /
`waiting_hitl`, and before any poll, the merged view shows `status = running`,
`current_phase = building` and an empty `current_agent` (the backend
acknowledgment is `hitlAck`, modelled from the spec since the endpoint is not
under src/). -/
theorem C3_submit_approved_predicts (s : RunPageState) (prev : Run)
    (hrun : s.run = some prev) (hph : prev.current_phase = "hitl_gate_1")
    (hst : prev.status = "waiting_hitl") :
    (handleHITL s (.ok (hitlAck "hitl_gate_1"))).run.map Run.status = some "running"
    ∧ (handleHITL s (.ok (hitlAck "hitl_gate_1"))).run.map Run.current_phase = some "building"
    ∧ (handleHITL s (.ok (hitlAck "hitl_gate_1"))).run.map Run.current_agent = some ""
    ∧ (handleHITL s (.ok (hitlAck "hitl_gate_1"))).hitlJustApproved = true := by
  have hne : (hitlAck "hitl_gate_1").status ≠ "already_processed" := by decide
  rw [handleHITL_armed s (hitlAck "hitl_gate_1") hne, hrun]
  exact ⟨rfl, rfl, rfl, rfl⟩

/-- C3 witness: sample state parked at gate 1. -/
theorem C3_witness :
    (handleHITL state0 (.ok (hitlAck "hitl_gate_1"))).run.map Run.status = some "running"
    ∧ (handleHITL state0 (.ok (hitlAck "hitl_gate_1"))).run.map Run.current_phase = some "building"
    ∧ (handleHITL state0 (.ok (hitlAck "hitl_gate_1"))).run.map Run.current_agent = some ""
    ∧ (handleHITL state0 (.ok (hitlAck "hitl_gate_1"))).hitlJustApproved = true :=
  C3_submit_approved_predicts state0 run0 rfl rfl rfl

/-- C4 counterexample: in a cycle whose run-status fetch fails with 404, a
fulfilled artifacts fetch does NOT update the artifacts field — the cycle
returns early, so the claim "every other fetch that succeeded in the same
cycle still updates its own field" fails when the failing fetch is the
run-status one with 404 (`state0.artifacts = some "old"` survives a fulfilled
`"new"`). -/
theorem C4_cex_notfound_blocks_siblings :
    (fetchAll state0 (.rejected true) (.fulfilled "new") (.rejected false)
      (.rejected false) (.rejected false) (.rejected false)).artifacts = some "old"
    ∧ (some "old" : Option String) ≠ some "new" :=
  ⟨rfl, by decide⟩

/-- C4 (amended): in every poll cycle whose run-status fetch is not a 404
failure, each of the five sibling mirror fields is updated exactly when its own
fetch fulfilled and kept stale exactly when its own fetch failed,
independently of every other fetch's outcome; and a (non-404) run-status
failure leaves the run field itself stale. -/
theorem C4_per_field_isolation (s : RunPageState) (runRes : Fetch Run)
    (a : Fetch String) (f d : Fetch (Option (List String))) (dp : Fetch Deploy)
    (ac : Fetch (Option (List ActivityEntry))) (h : runRes ≠ .rejected true) :
    (fetchAll s runRes a f d dp ac).artifacts
      = (match a with | .fulfilled x => some x | .rejected _ => s.artifacts)
    ∧ (fetchAll s runRes a f d dp ac).files
      = (match f with | .fulfilled x => x.getD [] | .rejected _ => s.files)
    ∧ (fetchAll s runRes a f d dp ac).decisions
      = (match d with | .fulfilled x => x.getD [] | .rejected _ => s.decisions)
    ∧ (fetchAll s runRes a f d dp ac).deploy
      = (match dp with | .fulfilled x => x | .rejected _ => s.deploy)
    ∧ (fetchAll s runRes a f d dp ac).activityLog
      = (match ac with | .fulfilled x => x.getD [] | .rejected _ => s.activityLog)
    ∧ (runRes = .rejected false → (fetchAll s runRes a f d dp ac).run = s.run) := by
  cases runRes with
  | fulfilled incoming =>
    refine ⟨?_, ?_, ?_, ?_, ?_, ?_⟩
    · show (applyRest (runStage s incoming) a f d dp ac).artifacts = _
      rw [applyRest_artifacts, runStage_artifacts]
    · show (applyRest (runStage s incoming) a f d dp ac).files = _
      rw [applyRest_files, runStage_files]
    · show (applyRest (runStage s incoming) a f d dp ac).decisions = _
      rw [applyRest_decisions, runStage_decisions]
    · show (applyRest (runStage s incoming) a f d dp ac).deploy = _
      rw [applyRest_deploy, runStage_deploy]
    · show (applyRest (runStage s incoming) a f d dp ac).activityLog = _
      rw [applyRest_activityLog, runStage_activityLog]
    · intro hr
      exact (Fetch.noConfusion hr)
  | rejected b =>
    have hb : b = false := by
      cases b with
      | true => exact absurd rfl h
      | false => rfl
    subst hb
    refine ⟨?_, ?_, ?_, ?_, ?_, fun _ => ?_⟩
    · exact applyRest_artifacts s a f d dp ac
    · exact applyRest_files s a f d dp ac
    · exact applyRest_decisions s a f d dp ac
    · exact applyRest_deploy s a f d dp ac
    · exact applyRest_activityLog s a f d dp ac
    · exact applyRest_run s a f d dp ac

/-- C4 witness: the run-status fetch fails transiently (non-404) while the
five sibling fetches fulfill — each sibling field still takes its own new
value and the run field alone stays stale. -/
theorem C4_witness :
    (fetchAll state0 (.rejected false) (.fulfilled "new") (.fulfilled (some ["f1"]))
      (.fulfilled (some ["d1"])) (.fulfilled { status := "running", urls := [] })
      (.fulfilled (some []))).artifacts = some "new"
    ∧ (fetchAll state0 (.rejected false) (.fulfilled "new") (.fulfilled (some ["f1"]))
      (.fulfilled (some ["d1"])) (.fulfilled { status := "running", urls := [] })
      (.fulfilled (some []))).files = ["f1"]
    ∧ (fetchAll state0 (.rejected false) (.fulfilled "new") (.fulfilled (some ["f1"]))
      (.fulfilled (some ["d1"])) (.fulfilled { status := "running", urls := [] })
      (.fulfilled (some []))).decisions = ["d1"]
    ∧ (fetchAll state0 (.rejected false) (.fulfilled "new") (.fulfilled (some ["f1"]))
      (.fulfilled (some ["d1"])) (.fulfilled { status := "running", urls := [] })
      (.fulfilled (some []))).deploy = { status := "running", urls := [] }
    ∧ (fetchAll state0 (.rejected false) (.fulfilled "new") (.fulfilled (some ["f1"]))
      (.fulfilled (some ["d1"])) (.fulfilled { status := "running", urls := [] })
      (.fulfilled (some []))).activityLog = []
    ∧ ((.rejected false : Fetch Run) = .rejected false →
      (fetchAll state0 (.rejected false) (.fulfilled "new") (.fulfilled (some ["f1"]))
        (.fulfilled (some ["d1"])) (.fulfilled { status := "running", urls := [] })
        (.fulfilled (some []))).run = state0.run) :=
  C4_per_field_isolation state0 (.rejected false) (.fulfilled "new")
    (.fulfilled (some ["f1"])) (.fulfilled (some ["d1"]))
    (.fulfilled { status := "running", urls := [] }) (.fulfilled (some []))
    (by decide)

/-- C5: once the run-status fetch reports 404 the interval is cleared and the
run is set absent, and no later in-session event (poll tick, manual refresh,
submission, deploy command, teardown — any sequence of them) ever restarts
polling or resurrects the run; only unmounting and re-activating the view can
(re-activation is outside the in-session event alphabet). -/
theorem C5_notfound_terminal_stop (s : RunPageState) (a : Fetch String)
    (f d : Fetch (Option (List String))) (dp : Fetch Deploy)
    (ac : Fetch (Option (List ActivityEntry))) (evs : List Event) :
    (evs.foldl step (fetchAll s (.rejected true) a f d dp ac)).polling = false
    ∧ (evs.foldl step (fetchAll s (.rejected true) a f d dp ac)).run = none :=
  foldl_dead evs (fetchAll s (.rejected true) a f d dp ac) rfl rfl

/-- C6: once a poll delivers an authoritative `status = completed`, the merged
state has the overlay retired and the interval cleared; no subsequent sequence
of in-session events restarts polling, and a submit event in the resulting
state is rejected (the gate surface is not rendered, so the event is a
no-op). -/
theorem C6_completed_terminal (s : RunPageState) (incoming : Run)
    (a : Fetch String) (f d : Fetch (Option (List String))) (dp : Fetch Deploy)
    (ac : Fetch (Option (List ActivityEntry))) (evs : List Event)
    (o : SubmitOutcome) (h : incoming.status = "completed") :
    (let t := completedCheck (fetchAll s (.fulfilled incoming) a f d dp ac);
     t.hitlJustApproved = false
     ∧ t.polling = false
     ∧ (evs.foldl step t).polling = false
     ∧ step t (.submitDecision o) = t) := by
  intro t
  have hne : incoming.status ≠ "waiting_hitl" := by rw [h]; decide
  have hrun : (applyRest (runStage s incoming) a f d dp ac).run = some incoming := by
    rw [applyRest_run]
    exact (runStage_resolved s incoming hne).1
  have hcond : (applyRest (runStage s incoming) a f d dp ac).run.map Run.status
      = some "completed" := by
    rw [hrun, Option.map_some', h]
  have ht : t = { applyRest (runStage s incoming) a f d dp ac with polling := false } := by
    show completedCheck (applyRest (runStage s incoming) a f d dp ac) = _
    unfold completedCheck
    rw [if_pos hcond]
  have hflag : t.hitlJustApproved = false := by
    rw [ht]
    show (applyRest (runStage s incoming) a f d dp ac).hitlJustApproved = false
    rw [applyRest_flag]
    exact (runStage_resolved s incoming hne).2
  have hpoll : t.polling = false := by rw [ht]
  have htrun : t.run = some incoming := by
    rw [ht]
    exact hrun
  refine ⟨hflag, hpoll, foldl_polling_false evs t hpoll, ?_⟩
  have hgate : isAtHITL t = false := by
    simp [isAtHITL, htrun, h]
  simp [step, hgate]

/-- C6 witness: a completed poll on the sample state followed by no events and
a late submission attempt. -/
theorem C6_witness :
    (let t := completedCheck (fetchAll state0 (.fulfilled runDone) (.rejected false)
       (.rejected false) (.rejected false) (.rejected false) (.rejected false));
     t.hitlJustApproved = false
     ∧ t.polling = false
     ∧ (([] : List Event).foldl step t).polling = false
     ∧ step t (.submitDecision (.failed "late")) = t) :=
  C6_completed_terminal state0 runDone (.rejected false) (.rejected false)
    (.rejected false) (.rejected false) (.rejected false) [] (.failed "late") rfl

/-- C7: a HITL control response of `already_processed` is treated as success:
the error field holds no error, the overlay ref is left exactly as it was (not
re-armed) and the merged run view is unchanged by the submission. -/
theorem C7_already_processed_noop (s : RunPageState) (data : HitlResponse)
    (h : data.status = "already_processed") :
    (handleHITL s (.ok data)).run = s.run
    ∧ (handleHITL s (.ok data)).hitlJustApproved = s.hitlJustApproved
    ∧ (handleHITL s (.ok data)).error = none := by
  have hc : ¬ data.status ≠ "already_processed" := by
    rw [h]
    exact fun hne => hne rfl
  simp only [handleHITL]
  rw [if_neg hc]
  exact ⟨rfl, rfl, rfl⟩

/-- C7 witness: idempotent resubmission signal on the sample state. -/
theorem C7_witness :
    (handleHITL state0 (.ok { status := "already_processed", current_phase := none })).run
      = state0.run
    ∧ (handleHITL state0 (.ok { status := "already_processed", current_phase := none
        })).hitlJustApproved = state0.hitlJustApproved
    ∧ (handleHITL state0 (.ok { status := "already_processed", current_phase := none
        })).error = none :=
  C7_already_processed_noop state0 { status := "already_processed", current_phase := none } rfl

/-- C8: the timeline projection is a pure function of the run's
`current_phase` and the activity log (identical inputs give the identical view
by definition; runs agreeing on `current_phase` project identically); phases
are always emitted in the fixed canonical order whatever the activity log is;
and each phase is classified `done` / `current` / `pending` by comparing its
index with the current phase's index. -/
theorem C8_projection_pure_ordered (run : Run) (log : List ActivityEntry)
    (run2 : Run) (h : run2.current_phase = run.current_phase) :
    (project run log).map PhaseView.key = PHASE_KEYS
    ∧ (project run log).map PhaseView.cls
      = (List.range PHASE_KEYS.length).map (classifyIdx (phaseIndex run.current_phase))
    ∧ project run2 log = project run log := by
  refine ⟨rfl, rfl, ?_⟩
  unfold project
  rw [h]

/-- C8 witness: the sample run at gate 1 with an empty log, and a second run
sharing only its phase. -/
theorem C8_witness :
    (project run0 []).map PhaseView.key = PHASE_KEYS
    ∧ (project run0 []).map PhaseView.cls
      = (List.range PHASE_KEYS.length).map (classifyIdx (phaseIndex run0.current_phase))
    ∧ project { run0 with brief := "other" } [] = project run0 [] :=
  C8_projection_pure_ordered run0 [] { run0 with brief := "other" } rfl

/-- C9 counterexample: with an overlay pending, a 404 poll result sets the run
absent, yet the overlay state (`hitlJustApproved` ref) is NOT destroyed — it
is still armed afterwards, contradicting "no overlay state survives the run's
transition to the absent state". -/
theorem C9_cex_overlay_survives_notfound :
    (fetchAll { state0 with hitlJustApproved := true } (.rejected true)
      (.rejected false) (.rejected false) (.rejected false) (.rejected false)
      (.rejected false)).run = none
    ∧ (fetchAll { state0 with hitlJustApproved := true } (.rejected true)
      (.rejected false) (.rejected false) (.rejected false) (.rejected false)
      (.rejected false)).hitlJustApproved = true :=
  ⟨rfl, rfl⟩

/-- C9 (amended): on a not-found run-status result the run is set absent and
polling stops, but the pending overlay flag is left exactly as it was — it
survives, merely becoming inert because no further poll can consult it. -/
theorem C9_notfound_keeps_overlay_flag (s : RunPageState) (a : Fetch String)
    (f d : Fetch (Option (List String))) (dp : Fetch Deploy)
    (ac : Fetch (Option (List ActivityEntry))) :
    (fetchAll s (.rejected true) a f d dp ac).run = none
    ∧ (fetchAll s (.rejected true) a f d dp ac).polling = false
    ∧ (fetchAll s (.rejected true) a f d dp ac).hitlJustApproved = s.hitlJustApproved :=
  ⟨rfl, rfl, rfl⟩

/-- C10: a poll cycle whose run-status fetch fails with 404 applies no field
update at all — artifacts, files, decisions, deploy status and activity log
all keep their previous values, even though their own fetch settlements are
arbitrary (possibly fulfilled). -/
theorem C10_notfound_cycle_applies_nothing (s : RunPageState) (a : Fetch String)
    (f d : Fetch (Option (List String))) (dp : Fetch Deploy)
    (ac : Fetch (Option (List ActivityEntry))) :
    (fetchAll s (.rejected true) a f d dp ac).artifacts = s.artifacts
    ∧ (fetchAll s (.rejected true) a f d dp ac).files = s.files
    ∧ (fetchAll s (.rejected true) a f d dp ac).decisions = s.decisions
    ∧ (fetchAll s (.rejected true) a f d dp ac).deploy = s.deploy
    ∧ (fetchAll s (.rejected true) a f d dp ac).activityLog = s.activityLog :=
  ⟨rfl, rfl, rfl, rfl, rfl⟩

end RunSync
